import Mathlib

/-!
Shallow embedding of the Healthcare-Support backend logic:
the urgency classifier, summary generator and validators from
`src/backend/utils/errorHandler.js` (concatenated validators / aiService
files) and the FAQ chatbot from `src/backend/services/chatbotService.js`.

JavaScript strings are modelled as Lean `String`, with `.length`,
`.substring`, `.trim`, `.toLowerCase` and `.includes` given list-based
executable models below (faithful on the ASCII data these functions are
applied to; JS counts UTF-16 code units and lower-cases a few non-ASCII
letters, which none of the fixed keyword tables contain).
JavaScript numbers are modelled as `ℚ` (exact on the small magnitudes
compared against 0, 30, 65, 150 here), and dynamically typed inputs as
the `JSVal` sum type with NaN represented by `Option.none` at the single
point (`Number(x)` coercion) where it can arise.
-/

set_option maxRecDepth 200000

namespace HealthcareSupport

/-- `charsPrefix needle hay` : `needle` is a prefix of `hay` (character lists). -/
def charsPrefix : List Char → List Char → Bool
  | [], _ => true
  | _ :: _, [] => false
  | a :: as, b :: bs => a == b && charsPrefix as bs

/-- `charsIncl needle hay` : `needle` occurs as a contiguous run inside `hay`. -/
def charsIncl (needle : List Char) : List Char → Bool
  | [] => charsPrefix needle []
  | c :: rest => charsPrefix needle (c :: rest) || charsIncl needle rest

/-- Model of JavaScript `hay.includes(needle)` (substring test). -/
def strIncludes (hay needle : String) : Bool :=
  charsIncl needle.data hay.data

/-- Model of JavaScript `s.toLowerCase()` (ASCII case folding). -/
def jsToLower (s : String) : String :=
  String.mk (s.data.map Char.toLower)

/-- Model of JavaScript `s.length`. -/
def strLength (s : String) : Nat :=
  s.data.length

/-- Model of JavaScript `s.substring(0, n)`. -/
def strTake (s : String) (n : Nat) : String :=
  String.mk (s.data.take n)

/-- Model of JavaScript `s.trim()` (strips leading/trailing whitespace). -/
def jsTrim (s : String) : String :=
  String.mk (((s.data.dropWhile Char.isWhitespace).reverse.dropWhile
    Char.isWhitespace).reverse)

/-- A dynamically typed JavaScript value, as it can arrive in a JSON
request body.  NaN is not a `num`: it only arises from the `Number(x)`
coercion, which is modelled as returning `Option.none` for NaN. -/
inductive JSVal where
  | undef : JSVal
  | null : JSVal
  | bool : Bool → JSVal
  | num : ℚ → JSVal
  | str : String → JSVal
deriving DecidableEq

/-- JavaScript truthiness of a `JSVal`. -/
def jsTruthy : JSVal → Bool
  | .undef => false
  | .null => false
  | .bool b => b
  | .num q => !(q == 0)
  | .str s => !(s == "")

/-- `typeof v === 'string'`. -/
def isString : JSVal → Bool
  | .str _ => true
  | _ => false

/-- The string held by a `JSVal`, for fields already validated to be
strings (`""` for the unreachable non-string cases). -/
def getStr : JSVal → String
  | .str s => s
  | _ => ""

/-- Numeric value of a run of decimal digits. -/
def digitsToNat (ds : List Char) : Nat :=
  ds.foldl (fun acc c => acc * 10 + (c.toNat - 48)) 0

/-- Product of two rationals, written with `mkRat` so that it evaluates
by kernel reduction (the library `Rat.mul` is irreducible). -/
def ratMul (a b : ℚ) : ℚ :=
  mkRat (a.num * b.num) (a.den * b.den)

/-- Exponent-part digits of a numeric literal: `base * 10^±n`. -/
def expDigits (ds : List Char) (base : ℚ) (negative : Bool) : Option ℚ :=
  if ds.isEmpty || !(ds.all Char.isDigit) then none
  else if negative then some (ratMul base (mkRat 1 (10 ^ digitsToNat ds)))
  else some (ratMul base (mkRat (Int.ofNat (10 ^ digitsToNat ds)) 1))

/-- Optional exponent suffix (`e`/`E`, optional sign, digits) of a numeric
literal. -/
def parseExp (cs : List Char) (base : ℚ) : Option ℚ :=
  match cs with
  | [] => some base
  | c :: rest =>
    if c == 'e' || c == 'E' then
      match rest with
      | '+' :: ds => expDigits ds base false
      | '-' :: ds => expDigits ds base true
      | ds => expDigits ds base false
    else none

/-- Unsigned decimal literal: digits, optional fraction, optional exponent. -/
def parseUnsigned (cs : List Char) : Option ℚ :=
  let intPart := cs.takeWhile Char.isDigit
  let rest1 := cs.dropWhile Char.isDigit
  match rest1 with
  | '.' :: rest2 =>
    let fracPart := rest2.takeWhile Char.isDigit
    let rest3 := rest2.dropWhile Char.isDigit
    if intPart.isEmpty && fracPart.isEmpty then none
    else parseExp rest3
      (mkRat (Int.ofNat (digitsToNat intPart * 10 ^ fracPart.length + digitsToNat fracPart))
        (10 ^ fracPart.length))
  | _ =>
    if intPart.isEmpty then none
    else parseExp rest1 (mkRat (Int.ofNat (digitsToNat intPart)) 1)

/-- `Number(s)` on a string: trimmed empty string is `0`, otherwise an
optionally signed decimal literal (hex/`Infinity` forms, which never occur
in this application's data, are mapped to NaN = `none`). -/
def parseNumber (s : String) : Option ℚ :=
  let t := (jsTrim s).data
  match t with
  | [] => some 0
  | '+' :: rest => parseUnsigned rest
  | '-' :: rest => (parseUnsigned rest).map Neg.neg
  | _ => parseUnsigned t

/-- JavaScript `Number(v)` coercion; `none` models NaN. -/
def jsNumber : JSVal → Option ℚ
  | .undef => none
  | .null => some 0
  | .bool b => some (if b then 1 else 0)
  | .num q => some q
  | .str s => parseNumber s

/-- `validateSupportRequest` from `validators.js`: returns `none` when the
request is valid, `some errorMessage` otherwise. -/
def validateSupportRequest (name age issueCategory description : JSVal) : Option String :=
  if !jsTruthy name || !isString name || decide ((jsTrim (getStr name)).data.length < 2) then
    some "Name is required and must be at least 2 characters"
  else if decide (100 < (jsTrim (getStr name)).data.length) then
    some "Name must be less than 100 characters"
  else if age == JSVal.undef || age == JSVal.null then
    some "Age is required"
  else if (jsNumber age).isNone || decide ((jsNumber age).getD 0 < 0)
      || decide (150 < (jsNumber age).getD 0) then
    -- numericAge = Number(age); isNaN(numericAge) || numericAge < 0 || numericAge > 150
    -- (on NaN the JS comparisons are false and the isNaN disjunct fires)
    some "Age must be a valid number between 0 and 150"
  else if !jsTruthy issueCategory
      || !(["Medical", "Mental Health", "Emergency", "Other"].any
            fun c => issueCategory == JSVal.str c) then
    some ("Issue category must be one of: " ++
      String.intercalate ", " ["Medical", "Mental Health", "Emergency", "Other"])
  else if !jsTruthy description || !isString description
      || decide ((jsTrim (getStr description)).data.length < 10) then
    some "Description is required and must be at least 10 characters"
  else if decide (2000 < (jsTrim (getStr description)).data.length) then
    some "Description must be less than 2000 characters"
  else
    none

/-- HIGH urgency keywords of `calculateUrgency` (aiService.js). -/
def highUrgencyKeywords : List String :=
  ["emergency", "severe", "unbearable", "chest pain", "breathing",
   "suicide", "blood", "accident", "unconscious", "heart attack",
   "stroke", "poisoning", "overdose", "collapse", "seizure",
   "not breathing", "dying", "critical", "urgent", "immediately"]

/-- MEDIUM urgency keywords of `calculateUrgency` (aiService.js). -/
def mediumUrgencyKeywords : List String :=
  ["fever", "pain", "infection", "swelling", "persistent",
   "recurring", "anxiety", "depression", "stress", "chronic",
   "medication", "worsening", "concerning", "trouble sleeping",
   "loss of appetite", "weakness", "dizzy", "nausea"]

/-- `calculateUrgency` from `aiService.js`.  The `description` argument is
the already lower-cased description (the caller `processWithMockAI`
lower-cases it). -/
def calculateUrgency (description category : String) (age : ℚ) : String :=
  let hasHighUrgency := highUrgencyKeywords.any fun keyword => strIncludes description keyword
  if hasHighUrgency || category == "Emergency" then
    "High"
  else
    let hasMediumUrgency := mediumUrgencyKeywords.any fun keyword => strIncludes description keyword
    if hasMediumUrgency || category == "Mental Health"
        || (decide (65 ≤ age) && decide (30 < strLength description)) then
      "Medium"
    else
      "Low"

/-- Rendering of a JS number in a template string.  Integer values render
as in JavaScript (`"30"`); the fraction notation for non-integers differs
from JS decimal notation but no claim depends on it. -/
def jsNumStr (q : ℚ) : String :=
  if q.den = 1 then toString q.num else toString q.num ++ "/" ++ toString q.den

/-- The `issuePreview` computed inside `generateSummary` (aiService.js):
`description.length > 100 ? description.substring(0, 100).trim() + '...' : description`. -/
def issuePreview (description : String) : String :=
  if 100 < strLength description then jsTrim (strTake description 100) ++ "..." else description

/-- The `summaryTemplates` object of `generateSummary`, as an association
list (insertion order preserved). -/
def summaryTemplates (age : ℚ) (issuePv : String) : List (String × String) :=
  [("Medical", "Patient (age " ++ jsNumStr age ++ ") reports a medical concern: " ++ issuePv),
   ("Mental Health", "Patient (age " ++ jsNumStr age ++ ") is seeking mental health support regarding: " ++ issuePv),
   ("Emergency", "URGENT: Patient (age " ++ jsNumStr age ++ ") requires immediate attention for: " ++ issuePv),
   ("Other", "Patient (age " ++ jsNumStr age ++ ") has submitted a support request: " ++ issuePv)]

/-- Own property names of `Object.prototype`.  A JavaScript bracket
access `obj[key]` on an object literal falls through to these inherited
members when `key` is none of the literal's own keys; each of their
values (a built-in function, or `Object.prototype` itself for
`"__proto__"`) is truthy. -/
def objectPrototypeKeys : List String :=
  ["constructor", "hasOwnProperty", "isPrototypeOf", "propertyIsEnumerable",
   "toLocaleString", "toString", "valueOf", "__defineGetter__",
   "__defineSetter__", "__lookupGetter__", "__lookupSetter__", "__proto__"]

/-- A value produced by `generateSummary`: either a template string, or —
when the category names a property inherited from `Object.prototype` —
that inherited (truthy, non-string) member, identified by its property
name. -/
inductive SummaryResult where
  | str : String → SummaryResult
  | inherited : String → SummaryResult
deriving DecidableEq

/-- `generateSummary` from `aiService.js`:
`summaryTemplates[category] || summaryTemplates['Other']`.  The bracket
access finds the object literal's own keys first and otherwise walks the
prototype chain; an own template is a non-empty string and an inherited
`Object.prototype` member is a function/object, both truthy, so the `||`
fallback to the Other template fires only when the access misses the own
keys and the inherited ones alike. -/
def generateSummary (category description : String) (age : ℚ) : SummaryResult :=
  let issuePv := issuePreview description
  match (summaryTemplates age issuePv).lookup category with
  | some t => .str t
  | none =>
    if category ∈ objectPrototypeKeys then
      .inherited category
    else
      .str (((summaryTemplates age issuePv).lookup "Other").getD "")

/-- `validateUrgency` from `aiService.js`:
`validUrgencies.includes(urgency) ? urgency : 'Medium'` where the
membership test is JS `===` against the three literal strings. -/
def validateUrgency (urgency : JSVal) : JSVal :=
  if urgency == JSVal.str "Low" || urgency == JSVal.str "Medium"
      || urgency == JSVal.str "High" then urgency
  else JSVal.str "Medium"

/-- `processWithMockAI` from `aiService.js`: lower-cases the description,
classifies urgency and generates the summary.  Returns
`(summary, urgency)`. -/
def processWithMockAI (age : ℚ) (issueCategory description : String) : SummaryResult × String :=
  let lowerDescription := jsToLower description
  let urgency := calculateUrgency lowerDescription issueCategory age
  let summary := generateSummary issueCategory description age
  (summary, urgency)

/-- Result of `handleSupportRequest` (supportController.js): either a
failure response `(status, error)` or a success response carrying
`patientName`, `category`, `summary` and `urgency`. -/
inductive HandlerResult where
  | failure : Nat → String → HandlerResult
  | success : String → String → SummaryResult → String → HandlerResult
deriving DecidableEq

/-- `handleSupportRequest` from `supportController.js`, in the
configuration without an OpenAI API key (the repository's default), so
`processPatientIssue` takes the mock-AI path.  Validation failure yields
the 400 response `{success:false, error}`. -/
def handleSupportRequest (name age issueCategory description : JSVal) : HandlerResult :=
  match validateSupportRequest name age issueCategory description with
  | some validationError => .failure 400 validationError
  | none =>
    let r := processWithMockAI ((jsNumber age).getD 0) (getStr issueCategory) (getStr description)
    .success (getStr name) (getStr issueCategory) r.1 r.2

/-- `EMERGENCY_KEYWORDS` from `chatbotService.js`. -/
def EMERGENCY_KEYWORDS : List String :=
  ["emergency", "dying", "suicide", "suicidal", "kill myself",
   "heart attack", "stroke", "overdose", "bleeding heavily",
   "can\x27t breathe", "cannot breathe", "unconscious", "seizure",
   "chest pain", "severe pain", "accident", "poisoning"]

/-- A FAQ intent record (chatbotService.js). -/
structure Intent where
  id : String
  keywords : List String
  response : String
deriving DecidableEq

/-- The `greeting` intent of `FAQ_INTENTS` (chatbotService.js). -/
def greetingIntent : Intent :=
  ⟨"greeting",
   ["hello", "hi", "hey", "good morning", "good evening", "namaste"],
   "Hello! Welcome to Jarurat Care. I\x27m here to help answer your questions about our healthcare support services. How can I assist you today?"⟩

/-- The `services` intent of `FAQ_INTENTS` (chatbotService.js). -/
def servicesIntent : Intent :=
  ⟨"services",
   ["what support", "what services", "what do you provide", "what help", "what can you do", "how can you help"],
   "Jarurat Care provides healthcare support services including:\n\nâ€¢ Medical support coordination - connecting you with healthcare resources\nâ€¢ Mental health support referrals\nâ€¢ Emergency assistance guidance\nâ€¢ Follow-up care coordination\n\nWe help connect patients with appropriate healthcare providers and support their care journey. Please note: We are a support service, not a medical provider."⟩

/-- The `response_time` intent of `FAQ_INTENTS` (chatbotService.js). -/
def responseTimeIntent : Intent :=
  ⟨"response_time",
   ["how long", "when will", "response time", "wait time", "how fast", "when can i expect"],
   "Our response times depend on the urgency of your request:\n\nâ€¢ High Priority: As soon as possible (typically within hours)\nâ€¢ Medium Priority: Within 24-48 hours\nâ€¢ Low Priority: Within 3-5 business days\n\nA volunteer will review your request and reach out based on the priority level assigned by our system."⟩

/-- The `medical_service` intent of `FAQ_INTENTS` (chatbotService.js). -/
def medicalServiceIntent : Intent :=
  ⟨"medical_service",
   ["medical service", "doctor", "diagnose", "diagnosis", "prescribe", "medicine", "treatment", "medical advice"],
   "Important: Jarurat Care is a support coordination service, NOT a medical provider.\n\nWe cannot:\nâ€¢ Diagnose medical conditions\nâ€¢ Prescribe medications\nâ€¢ Provide medical treatment\n\nWe CAN help connect you with qualified healthcare professionals in your area. For medical concerns, please consult a licensed healthcare provider."⟩

/-- The `emergency` intent of `FAQ_INTENTS` (chatbotService.js). -/
def emergencyIntent : Intent :=
  ⟨"emergency",
   EMERGENCY_KEYWORDS,
   "âš ï¸ IMPORTANT: If you are experiencing a medical emergency, please contact emergency services IMMEDIATELY.\n\nâ€¢ India Emergency: 112\nâ€¢ Ambulance: 102\nâ€¢ Health Helpline: 104\n\nThis chatbot cannot provide emergency medical assistance. Please do not wait - call emergency services right away.\n\nIf this is not an emergency, a volunteer will review your support request and reach out to you."⟩

/-- The `data_safety` intent of `FAQ_INTENTS` (chatbotService.js). -/
def dataSafetyIntent : Intent :=
  ⟨"data_safety",
   ["data safe", "privacy", "confidential", "secure", "who sees", "share my information"],
   "Your privacy is important to us. Here\x27s how we handle your data:\n\nâ€¢ Information is only used to process your support request\nâ€¢ Trained volunteers handle your case under strict confidentiality\nâ€¢ We do not share personal health information with third parties without consent\nâ€¢ Data is stored securely and accessed only by authorized personnel\n\nFor detailed privacy information, please contact our support team."⟩

/-- The `volunteer` intent of `FAQ_INTENTS` (chatbotService.js). -/
def volunteerIntent : Intent :=
  ⟨"volunteer",
   ["volunteer", "who helps", "who responds", "staff", "team"],
   "Our support is provided by trained volunteers who:\n\nâ€¢ Understand healthcare coordination\nâ€¢ Follow strict confidentiality guidelines\nâ€¢ Are supervised by experienced coordinators\nâ€¢ Care about helping underserved communities\n\nThey will review your request and help connect you with appropriate resources."⟩

/-- The `how_to_submit` intent of `FAQ_INTENTS` (chatbotService.js). -/
def howToSubmitIntent : Intent :=
  ⟨"how_to_submit",
   ["submit", "request", "form", "how to apply", "how to get help", "fill out"],
   "To submit a support request:\n\n1. Fill out the Patient Support Form on our portal\n2. Provide your name, age, and issue category\n3. Describe your healthcare concern in detail\n4. Click \"Submit Request\"\n\nOur AI system will analyze your request, assign a priority level, and a volunteer will follow up based on urgency."⟩

/-- The `cost` intent of `FAQ_INTENTS` (chatbotService.js). -/
def costIntent : Intent :=
  ⟨"cost",
   ["cost", "fee", "charge", "price", "payment", "free", "money"],
   "Jarurat Care is an NGO providing FREE healthcare support coordination services.\n\nWe do not charge for:\nâ€¢ Reviewing your support request\nâ€¢ Connecting you with resources\nâ€¢ Follow-up coordination\n\nNote: Actual medical services from healthcare providers may have their own costs. We help connect you but cannot cover medical expenses."⟩

/-- The `mental_health` intent of `FAQ_INTENTS` (chatbotService.js). -/
def mentalHealthIntent : Intent :=
  ⟨"mental_health",
   ["mental health", "anxiety", "depression", "stress", "counseling", "therapy", "sad", "worried"],
   "Mental health is just as important as physical health. Jarurat Care can help connect you with:\n\nâ€¢ Mental health support resources\nâ€¢ Counseling service referrals\nâ€¢ Crisis helpline information\n\nIf you\x27re struggling, you\x27re not alone. Please submit a support request under \"Mental Health\" category, and a volunteer will reach out.\n\nFor immediate crisis support:\nâ€¢ iCall: 9152987821\nâ€¢ Vandrevala Foundation: 1860-2662-345"⟩

/-- The `thanks` intent of `FAQ_INTENTS` (chatbotService.js). -/
def thanksIntent : Intent :=
  ⟨"thanks",
   ["thank", "thanks", "thank you", "appreciate"],
   "You\x27re welcome! We\x27re here to help. If you have any more questions or need support, feel free to ask or submit a support request through our form. Take care! ðŸ’š"⟩

/-- The `bye` intent of `FAQ_INTENTS` (chatbotService.js). -/
def byeIntent : Intent :=
  ⟨"bye",
   ["bye", "goodbye", "see you", "take care"],
   "Take care! Remember, we\x27re here whenever you need support. Don\x27t hesitate to reach out. Wishing you good health! ðŸ’š"⟩

/-- `FAQ_INTENTS` from `chatbotService.js`, in registration order. -/
def FAQ_INTENTS : List Intent :=
  [greetingIntent, servicesIntent, responseTimeIntent, medicalServiceIntent, emergencyIntent, dataSafetyIntent, volunteerIntent, howToSubmitIntent, costIntent, mentalHealthIntent, thanksIntent, byeIntent]

/-- `DEFAULT_RESPONSE` from `chatbotService.js`. -/
def DEFAULT_RESPONSE : String :=
  "I understand you have a question. While I may not have a specific answer for that, here\x27s what I can help with:\n\nâ€¢ Information about our support services\nâ€¢ How to submit a request\nâ€¢ Response time expectations\nâ€¢ Data privacy questions\nâ€¢ Mental health resources\n\nFor specific healthcare concerns, please submit a support request through our form, and a volunteer will review your case personally.\n\nIs there something else I can help you with?"

/-- `SAFETY_DISCLAIMER` from `chatbotService.js`. -/
def SAFETY_DISCLAIMER : String :=
  "\n\n---\n_Disclaimer: This chatbot provides general guidance only. It does not provide medical advice, diagnosis, or treatment. For medical concerns, please consult a healthcare professional._"

/-- `containsEmergencyKeywords` from `chatbotService.js`. -/
def containsEmergencyKeywords (message : String) : Bool :=
  EMERGENCY_KEYWORDS.any fun keyword => strIncludes (jsToLower message) (jsToLower keyword)

/-- The `matchCount` computed in `findMatchingIntent`: how many of the
intent's keywords occur in the lower-cased message. -/
def scoreIntent (lowerMessage : String) (intent : Intent) : Nat :=
  (intent.keywords.filter fun keyword => strIncludes lowerMessage (jsToLower keyword)).length

/-- The scoring loop of `findMatchingIntent`: walks the intent list
carrying `(bestMatch, bestScore)`, skipping the emergency intent and
updating only on a strictly greater `matchCount`. -/
def bestLoop (lowerMessage : String) : List Intent → Option Intent × Nat → Option Intent × Nat
  | [], acc => acc
  | intent :: rest, acc =>
    if intent.id == "emergency" then
      bestLoop lowerMessage rest acc
    else if acc.2 < scoreIntent lowerMessage intent then
      bestLoop lowerMessage rest (some intent, scoreIntent lowerMessage intent)
    else
      bestLoop lowerMessage rest acc

/-- `findMatchingIntent` from `chatbotService.js`: emergency check first,
otherwise best-score scan starting from `(null, 0)`. -/
def findMatchingIntent (message : String) : Option Intent :=
  if containsEmergencyKeywords message then
    FAQ_INTENTS.find? fun intent => intent.id == "emergency"
  else
    (bestLoop (jsToLower message) FAQ_INTENTS (none, 0)).1

/-- `processMessage` from `chatbotService.js` (the `reply` field of the
returned object). -/
def processMessage (userMessage : JSVal) : String :=
  if !jsTruthy userMessage || !isString userMessage then
    "I didn\x27t receive a message. How can I help you today?" ++ SAFETY_DISCLAIMER
  else
    let trimmedMessage := jsTrim (getStr userMessage)
    if trimmedMessage.data.length = 0 then
      "Please type a message so I can assist you." ++ SAFETY_DISCLAIMER
    else
      match findMatchingIntent trimmedMessage with
      | some matchedIntent => matchedIntent.response ++ SAFETY_DISCLAIMER
      | none => DEFAULT_RESPONSE ++ SAFETY_DISCLAIMER

/-- Modelled from the spec: "string (lo–hi chars)" — the value is a
string whose trimmed length lies in `[lo, hi]`. -/
def trimmedLenBetween (v : JSVal) (lo hi : Nat) : Bool :=
  match v with
  | .str s => decide (lo ≤ (jsTrim s).data.length) && decide ((jsTrim s).data.length ≤ hi)
  | _ => false

/-- Modelled from the spec: "age: integer [0,150]" — the value is an
integer number between 0 and 150. -/
def intAgeInRange (v : JSVal) : Bool :=
  match v with
  | .num q => decide (q.den = 1) && decide (0 ≤ q) && decide (q ≤ 150)
  | _ => false

/-- Modelled from the spec (amended): the value's `Number` coercion is a
(not necessarily integer) number between 0 and 150. -/
def numberAgeInRange (v : JSVal) : Bool :=
  match jsNumber v with
  | some q => decide (0 ≤ q) && decide (q ≤ 150)
  | none => false

/-- Modelled from the spec: "issueCategory: enum{Medical, MentalHealth,
Emergency, Other}". -/
def categoryOk (v : JSVal) : Bool :=
  v == JSVal.str "Medical" || v == JSVal.str "Mental Health"
    || v == JSVal.str "Emergency" || v == JSVal.str "Other"

/-- Modelled from the spec: the claim's acceptance condition for
`validateSupportRequest` as literally stated (name trimmed to 2–100
characters, age an **integer** in [0,150], category one of the four enum
values, description trimmed to 10–2000 characters).  Used to compare the
claimed characterisation with the code. -/
def specAcceptsClaim (name age issueCategory description : JSVal) : Bool :=
  trimmedLenBetween name 2 100 && intAgeInRange age && categoryOk issueCategory &&
    trimmedLenBetween description 10 2000

/-- Modelled from the spec (amended): as `specAcceptsClaim`, but the age
is any present (non-undefined, non-null) value whose `Number` coercion is
a (not necessarily integer) number in [0,150]. -/
def specAcceptsAmended (name age issueCategory description : JSVal) : Bool :=
  trimmedLenBetween name 2 100 &&
  (!(age == JSVal.undef) && !(age == JSVal.null) && numberAgeInRange age) &&
  categoryOk issueCategory &&
  trimmedLenBetween description 10 2000

/-! ### Theorems -/

/-- **C1.** For every description string, category string, and age: if the
description contains any keyword of the fixed high-urgency keyword set as
a substring, or the category equals `"Emergency"`, then `calculateUrgency`
returns `"High"` — regardless of the age, of the medium-urgency keywords,
and of any other condition. -/
theorem calculateUrgency_high_of_keyword_or_emergency
    (description category : String) (age : ℚ)
    (h : (∃ k ∈ highUrgencyKeywords, strIncludes description k = true) ∨
      category = "Emergency") :
    calculateUrgency description category age = "High" := by
  rcases h with ⟨k, hk, hinc⟩ | hcat
  · have hany : (highUrgencyKeywords.any fun keyword => strIncludes description keyword) = true :=
      List.any_eq_true.mpr ⟨k, hk, hinc⟩
    simp [calculateUrgency, hany]
  · subst hcat
    simp [calculateUrgency]

/-- Witness for C1: a "severe"-keyword description of a non-Emergency
category is classified High. -/
theorem calculateUrgency_high_witness :
    calculateUrgency "severe chest pain and shortness of breath" "Medical" 72 = "High" :=
  calculateUrgency_high_of_keyword_or_emergency _ _ _
    (Or.inl ⟨"severe", by decide, by decide⟩)

/-- **C2.** For every description, category, and age such that the
description contains no high-urgency keyword and the category is not
`"Emergency"`: `calculateUrgency` returns `"Medium"` iff the description
contains a medium-urgency keyword, or the category equals
`"Mental Health"`, or (age ≥ 65 and the description length is greater
than 30); in every remaining case it returns `"Low"`. -/
theorem calculateUrgency_medium_low_characterisation
    (description category : String) (age : ℚ)
    (h1 : ∀ k ∈ highUrgencyKeywords, strIncludes description k = false)
    (h2 : category ≠ "Emergency") :
    (calculateUrgency description category age = "Medium" ↔
      ((∃ k ∈ mediumUrgencyKeywords, strIncludes description k = true) ∨
        category = "Mental Health" ∨ (65 ≤ age ∧ 30 < strLength description))) ∧
    (calculateUrgency description category age = "Low" ↔
      ¬((∃ k ∈ mediumUrgencyKeywords, strIncludes description k = true) ∨
        category = "Mental Health" ∨ (65 ≤ age ∧ 30 < strLength description))) := by
  have hhigh : (highUrgencyKeywords.any fun keyword => strIncludes description keyword) = false := by
    simp only [Bool.eq_false_iff, ne_eq, List.any_eq_true, not_exists]
    intro k hcontra
    rcases hcontra with ⟨hk, hinc⟩
    rw [h1 k hk] at hinc
    exact Bool.false_ne_true hinc
  have hcat : (category == "Emergency") = false := beq_eq_false_iff_ne.mpr h2
  have hred : calculateUrgency description category age =
      if ((mediumUrgencyKeywords.any fun keyword => strIncludes description keyword) ||
          (category == "Mental Health") ||
          (decide (65 ≤ age) && decide (30 < strLength description))) then "Medium" else "Low" := by
    unfold calculateUrgency
    rw [hhigh, hcat]
    rfl
  have key : ((mediumUrgencyKeywords.any fun keyword => strIncludes description keyword) ||
      (category == "Mental Health") ||
      (decide (65 ≤ age) && decide (30 < strLength description))) = true ↔
      ((∃ k ∈ mediumUrgencyKeywords, strIncludes description k = true) ∨
        category = "Mental Health" ∨ (65 ≤ age ∧ 30 < strLength description)) := by
    simp [List.any_eq_true, or_assoc]
  rw [hred]
  by_cases hP : ((∃ k ∈ mediumUrgencyKeywords, strIncludes description k = true) ∨
      category = "Mental Health" ∨ (65 ≤ age ∧ 30 < strLength description))
  · rw [if_pos (key.mpr hP)]
    exact ⟨⟨fun _ => hP, fun _ => rfl⟩,
      ⟨fun habs => absurd habs (by decide), fun hn => absurd hP hn⟩⟩
  · have hcond : ¬(((mediumUrgencyKeywords.any fun keyword => strIncludes description keyword) ||
        (category == "Mental Health") ||
        (decide (65 ≤ age) && decide (30 < strLength description))) = true) :=
      fun htt => absurd (key.mp htt) hP
    rw [if_neg hcond]
    exact ⟨⟨fun habs => absurd habs (by decide), fun hp => absurd hp hP⟩,
      ⟨fun _ => hP, fun _ => rfl⟩⟩

/-- Witness for C2: "mild headache for two days", category Medical,
age 30 is classified Low. -/
theorem calculateUrgency_low_witness :
    calculateUrgency "mild headache for two days" "Medical" 30 = "Low" :=
  (calculateUrgency_medium_low_characterisation "mild headache for two days" "Medical" 30
    (by decide) (by decide)).2.mpr (by decide)

/-- Lookup in the summary-template table misses every category outside
the four own keys. -/
theorem summaryTemplates_lookup_eq_none (age : ℚ) (issuePv : String) (category : String)
    (h : category ∉ (["Medical", "Mental Health", "Emergency", "Other"] : List String)) :
    (summaryTemplates age issuePv).lookup category = none := by
  have e1 : (category == "Medical") = false :=
    beq_eq_false_iff_ne.mpr fun hc => h (by simp [hc])
  have e2 : (category == "Mental Health") = false :=
    beq_eq_false_iff_ne.mpr fun hc => h (by simp [hc])
  have e3 : (category == "Emergency") = false :=
    beq_eq_false_iff_ne.mpr fun hc => h (by simp [hc])
  have e4 : (category == "Other") = false :=
    beq_eq_false_iff_ne.mpr fun hc => h (by simp [hc])
  unfold summaryTemplates
  simp only [List.lookup, e1, e2, e3, e4]

/-- **C6 (amended).** For every category, description, and age,
`generateSummary` returns the category-specific template string for
Medical, Mental Health, Emergency, or Other with the description
interpolated; the interpolated description is the original one when its
length is at most 100 and otherwise its first 100 characters (trimmed)
followed by `"..."`; a category outside the four known ones yields the
Other template **unless** it names a property inherited from
`Object.prototype` (such as `"constructor"` or `"toString"`), in which
case the bracket access returns that inherited truthy member and no
template at all. -/
theorem generateSummary_templates (category description : String) (age : ℚ) :
    (category = "Medical" → generateSummary category description age = SummaryResult.str
      ("Patient (age " ++ jsNumStr age ++ ") reports a medical concern: " ++ issuePreview description)) ∧
    (category = "Mental Health" → generateSummary category description age = SummaryResult.str
      ("Patient (age " ++ jsNumStr age ++ ") is seeking mental health support regarding: " ++ issuePreview description)) ∧
    (category = "Emergency" → generateSummary category description age = SummaryResult.str
      ("URGENT: Patient (age " ++ jsNumStr age ++ ") requires immediate attention for: " ++ issuePreview description)) ∧
    (category = "Other" → generateSummary category description age = SummaryResult.str
      ("Patient (age " ++ jsNumStr age ++ ") has submitted a support request: " ++ issuePreview description)) ∧
    (category ∉ (["Medical", "Mental Health", "Emergency", "Other"] : List String) →
      category ∉ objectPrototypeKeys →
      generateSummary category description age = SummaryResult.str
        ("Patient (age " ++ jsNumStr age ++ ") has submitted a support request: " ++ issuePreview description)) ∧
    (category ∉ (["Medical", "Mental Health", "Emergency", "Other"] : List String) →
      category ∈ objectPrototypeKeys →
      generateSummary category description age = SummaryResult.inherited category) ∧
    (strLength description ≤ 100 → issuePreview description = description) ∧
    (100 < strLength description →
      issuePreview description = jsTrim (strTake description 100) ++ "...") := by
  refine ⟨?_, ?_, ?_, ?_, ?_, ?_, ?_, ?_⟩
  · intro h
    subst h
    rfl
  · intro h
    subst h
    rfl
  · intro h
    subst h
    rfl
  · intro h
    subst h
    rfl
  · intro h h2
    unfold generateSummary
    simp only [summaryTemplates_lookup_eq_none age _ category h, if_neg h2]
    rfl
  · intro h h2
    unfold generateSummary
    simp only [summaryTemplates_lookup_eq_none age _ category h, if_pos h2]
  · intro h
    unfold issuePreview
    rw [if_neg (by omega)]
  · intro h
    unfold issuePreview
    rw [if_pos h]

/-- Witness for C6: the unknown, non-inherited category "Unknown" falls
back to the Other template with the short description interpolated
unchanged. -/
theorem generateSummary_witness :
    generateSummary "Unknown" "short illness description" 30 =
      SummaryResult.str
        "Patient (age 30) has submitted a support request: short illness description" := by
  have h := (generateSummary_templates "Unknown" "short illness description" 30).2.2.2.2.1
    (by decide) (by decide)
  rw [h]
  rfl

/-- Counterexample for C6 as stated: the category "constructor" is
outside the four known ones, yet the JS bracket access
`summaryTemplates["constructor"]` hits the truthy `constructor` property
inherited from `Object.prototype`, so `generateSummary` returns that
inherited member, not the Other template. -/
theorem generateSummary_prototype_counterexample :
    generateSummary "constructor" "short illness description" 30 =
      SummaryResult.inherited "constructor" ∧
    generateSummary "constructor" "short illness description" 30 ≠
      SummaryResult.str
        "Patient (age 30) has submitted a support request: short illness description" :=
  ⟨by decide, by decide⟩

/-- **C10.** `validateUrgency` maps every input to a member of
{"Low", "Medium", "High"}: it is the identity on those three strings and
returns `"Medium"` for every other value. -/
theorem validateUrgency_total_map (v : JSVal) :
    (validateUrgency v = JSVal.str "Low" ∨ validateUrgency v = JSVal.str "Medium" ∨
      validateUrgency v = JSVal.str "High") ∧
    ((v = JSVal.str "Low" ∨ v = JSVal.str "Medium" ∨ v = JSVal.str "High") →
      validateUrgency v = v) ∧
    ((v ≠ JSVal.str "Low" ∧ v ≠ JSVal.str "Medium" ∧ v ≠ JSVal.str "High") →
      validateUrgency v = JSVal.str "Medium") := by
  by_cases h : v = JSVal.str "Low" ∨ v = JSVal.str "Medium" ∨ v = JSVal.str "High"
  · have hcond : (v == JSVal.str "Low" || v == JSVal.str "Medium" || v == JSVal.str "High") = true := by
      rcases h with h | h | h <;> simp [h]
    have hid : validateUrgency v = v := by
      unfold validateUrgency
      rw [hcond]
      rfl
    refine ⟨?_, fun _ => hid, ?_⟩
    · rcases h with h | h | h
      · exact Or.inl (by rw [hid, h])
      · exact Or.inr (Or.inl (by rw [hid, h]))
      · exact Or.inr (Or.inr (by rw [hid, h]))
    · intro hne
      rcases h with h | h | h
      · exact absurd h hne.1
      · exact absurd h hne.2.1
      · exact absurd h hne.2.2
  · push_neg at h
    have hcond : (v == JSVal.str "Low" || v == JSVal.str "Medium" || v == JSVal.str "High") = false := by
      simp [beq_eq_false_iff_ne.mpr h.1, beq_eq_false_iff_ne.mpr h.2.1,
        beq_eq_false_iff_ne.mpr h.2.2]
    have hmed : validateUrgency v = JSVal.str "Medium" := by
      unfold validateUrgency
      rw [hcond]
      rfl
    exact ⟨Or.inr (Or.inl hmed), fun habs => absurd habs (by tauto), fun _ => hmed⟩

/-- Witness for C10: the out-of-range urgency string "Critical" is
silently coerced to "Medium". -/
theorem validateUrgency_witness :
    validateUrgency (JSVal.str "Critical") = JSVal.str "Medium" :=
  (validateUrgency_total_map (JSVal.str "Critical")).2.2 ⟨by decide, by decide, by decide⟩

/-- The scoring loop distributes over list append. -/
theorem bestLoop_append (lower : String) (l₁ l₂ : List Intent) (acc : Option Intent × Nat) :
    bestLoop lower (l₁ ++ l₂) acc = bestLoop lower l₂ (bestLoop lower l₁ acc) := by
  induction l₁ generalizing acc with
  | nil => rfl
  | cons i t ih =>
    simp only [List.cons_append, bestLoop]
    by_cases h : (i.id == "emergency") = true
    · rw [if_pos h, if_pos h]
      exact ih acc
    · rw [if_neg h, if_neg h]
      by_cases h2 : acc.2 < scoreIntent lower i
      · rw [if_pos h2, if_pos h2]
        exact ih _
      · rw [if_neg h2, if_neg h2]
        exact ih acc

/-- If no non-emergency intent in the remaining list beats the running
best score, the scoring loop leaves the accumulator unchanged. -/
theorem bestLoop_no_update (lower : String) (l : List Intent) (acc : Option Intent × Nat)
    (h : ∀ j ∈ l, (j.id == "emergency") = true ∨ scoreIntent lower j ≤ acc.2) :
    bestLoop lower l acc = acc := by
  induction l with
  | nil => rfl
  | cons i t ih =>
    simp only [bestLoop]
    by_cases hid : (i.id == "emergency") = true
    · rw [if_pos hid]
      exact ih fun j hj => h j (List.mem_cons_of_mem i hj)
    · rw [if_neg hid]
      have hle : scoreIntent lower i ≤ acc.2 :=
        (h i (List.mem_cons_self i t)).resolve_left hid
      rw [if_neg (Nat.not_lt.mpr hle)]
      exact ih fun j hj => h j (List.mem_cons_of_mem i hj)

/-- The running best score of the scoring loop stays below any bound that
dominates the starting score and all candidate scores. -/
theorem bestLoop_lt (lower : String) (l : List Intent) (T : Nat) :
    ∀ acc : Option Intent × Nat, acc.2 < T →
    (∀ j ∈ l, (j.id == "emergency") = true ∨ scoreIntent lower j < T) →
    (bestLoop lower l acc).2 < T := by
  induction l with
  | nil =>
    intro acc hacc _
    exact hacc
  | cons i t ih =>
    intro acc hacc h
    simp only [bestLoop]
    by_cases hid : (i.id == "emergency") = true
    · rw [if_pos hid]
      exact ih acc hacc fun j hj => h j (List.mem_cons_of_mem i hj)
    · rw [if_neg hid]
      by_cases hlt : acc.2 < scoreIntent lower i
      · rw [if_pos hlt]
        exact ih _ ((h i (List.mem_cons_self i t)).resolve_left hid)
          fun j hj => h j (List.mem_cons_of_mem i hj)
      · rw [if_neg hlt]
        exact ih acc hacc fun j hj => h j (List.mem_cons_of_mem i hj)

/-- **C3.** For every chat message: if the lower-cased message contains
any keyword of the emergency keyword set as a substring,
`findMatchingIntent` returns the intent with id `"emergency"`, bypassing
the keyword-count scoring, no matter how many keywords of other intents
also match. -/
theorem findMatchingIntent_emergency (message : String)
    (h : ∃ k ∈ EMERGENCY_KEYWORDS, strIncludes (jsToLower message) (jsToLower k) = true) :
    findMatchingIntent message = some emergencyIntent := by
  have hb : containsEmergencyKeywords message = true := List.any_eq_true.mpr h
  unfold findMatchingIntent
  rw [if_pos hb]
  rfl

/-- Witness for C3: a message holding the emergency keyword
"heart attack" together with greeting and thanks keywords still returns
the emergency intent. -/
theorem findMatchingIntent_emergency_witness :
    findMatchingIntent "hello, I think I am having a heart attack, thanks" = some emergencyIntent :=
  findMatchingIntent_emergency _ ⟨"heart attack", by decide, by decide⟩

/-- **C4 (amended).** For every message with no emergency keyword: if a
non-emergency intent has a positive keyword-hit count that is maximal
among all non-emergency intents and strictly greater than the count of
every non-emergency intent listed before it, `findMatchingIntent` returns
that intent — in particular, when two intents tie for the maximal
positive count, the one registered earlier in `FAQ_INTENTS` wins the tie
(the strict-greater-than comparison). -/
theorem findMatchingIntent_first_of_max (message : String) (l₁ l₂ : List Intent) (intent : Intent)
    (hsplit : FAQ_INTENTS = l₁ ++ intent :: l₂)
    (hne : containsEmergencyKeywords message = false)
    (hid : (intent.id == "emergency") = false)
    (hpos : 0 < scoreIntent (jsToLower message) intent)
    (hbefore : ∀ j ∈ l₁, (j.id == "emergency") = false →
      scoreIntent (jsToLower message) j < scoreIntent (jsToLower message) intent)
    (hafter : ∀ j ∈ l₂, (j.id == "emergency") = false →
      scoreIntent (jsToLower message) j ≤ scoreIntent (jsToLower message) intent) :
    findMatchingIntent message = some intent := by
  unfold findMatchingIntent
  rw [if_neg (by simp [hne]), hsplit, bestLoop_append]
  have h1 : (bestLoop (jsToLower message) l₁ (none, 0)).2 <
      scoreIntent (jsToLower message) intent := by
    apply bestLoop_lt
    · exact hpos
    · intro j hj
      by_cases hjid : (j.id == "emergency") = true
      · exact Or.inl hjid
      · exact Or.inr (hbefore j hj (Bool.eq_false_iff.mpr hjid))
  simp only [bestLoop]
  rw [if_neg (by simp [hid]), if_pos h1]
  rw [bestLoop_no_update]
  · intro j hj
    by_cases hjid : (j.id == "emergency") = true
    · exact Or.inl hjid
    · exact Or.inr (hafter j hj (Bool.eq_false_iff.mpr hjid))

/-- Witness for C4: in "hi there and bye" the greeting and bye intents tie
with one keyword hit each, and the earlier-registered greeting intent is
returned. -/
theorem findMatchingIntent_tie_witness :
    findMatchingIntent "hi there and bye" = some greetingIntent :=
  findMatchingIntent_first_of_max "hi there and bye" []
    [servicesIntent, responseTimeIntent, medicalServiceIntent, emergencyIntent,
     dataSafetyIntent, volunteerIntent, howToSubmitIntent, costIntent,
     mentalHealthIntent, thanksIntent, byeIntent]
    greetingIntent rfl (by decide) (by decide) (by decide) (by decide) (by decide)

/-- Counterexample for C4 as stated: in the message "zzz" every pair of
non-emergency intents has equal and maximal (namely zero) keyword-hit
counts, yet `findMatchingIntent` returns `none`, not the earlier intent
of any such pair. -/
theorem findMatchingIntent_zero_counterexample :
    containsEmergencyKeywords "zzz" = false ∧
    (FAQ_INTENTS.all fun i => i.id == "emergency" || scoreIntent (jsToLower "zzz") i == 0) = true ∧
    findMatchingIntent "zzz" = none :=
  ⟨by decide, by decide, by decide⟩

/-- **C7 (amended).** For every chat message whose trimmed form is
non-empty, that contains no emergency keyword, and in which every
non-emergency intent scores zero keyword hits, `processMessage` returns
the fixed generic default response suffixed with the disclaimer. -/
theorem processMessage_default_response (m : String)
    (hne : (jsTrim m).data.length ≠ 0)
    (hemerg : containsEmergencyKeywords (jsTrim m) = false)
    (hzero : ∀ i ∈ FAQ_INTENTS, (i.id == "emergency") = false →
      scoreIntent (jsToLower (jsTrim m)) i = 0) :
    processMessage (JSVal.str m) = DEFAULT_RESPONSE ++ SAFETY_DISCLAIMER := by
  have hm : m ≠ "" := by
    intro h
    subst h
    exact hne rfl
  have hfind : findMatchingIntent (jsTrim m) = none := by
    unfold findMatchingIntent
    rw [if_neg (by simp [hemerg]), bestLoop_no_update]
    intro j hj
    by_cases hjid : (j.id == "emergency") = true
    · exact Or.inl hjid
    · exact Or.inr (Nat.le_of_eq (hzero j hj (Bool.eq_false_iff.mpr hjid)))
  have hc1 : (!jsTruthy (JSVal.str m) || !isString (JSVal.str m)) = false := by
    simp [jsTruthy, isString, beq_eq_false_iff_ne.mpr hm]
  unfold processMessage
  rw [if_neg (by simp [hc1])]
  simp only [getStr]
  rw [if_neg hne, hfind]

/-- Witness for C7: the message "qwxy" matches no keyword at all and gets
the default response plus disclaimer. -/
theorem processMessage_default_witness :
    processMessage (JSVal.str "qwxy") = DEFAULT_RESPONSE ++ SAFETY_DISCLAIMER :=
  processMessage_default_response "qwxy" (by decide) (by decide) (by decide)

/-- Counterexample for C7 as stated: the whitespace-only message `" "` is
non-empty, contains no emergency keyword and scores zero on every
non-emergency intent, yet `processMessage` returns the empty-message
prompt, not the default FAQ response. -/
theorem processMessage_whitespace_counterexample :
    (" " ≠ "") ∧
    containsEmergencyKeywords " " = false ∧
    (FAQ_INTENTS.all fun i => i.id == "emergency" || scoreIntent (jsToLower " ") i == 0) = true ∧
    processMessage (JSVal.str " ") = "Please type a message so I can assist you." ++ SAFETY_DISCLAIMER ∧
    processMessage (JSVal.str " ") ≠ DEFAULT_RESPONSE ++ SAFETY_DISCLAIMER :=
  ⟨by decide, by decide, by decide, by decide, by decide⟩

/-- **C8.** For every input to `processMessage` — matched intent, default
response, missing/non-string message, or empty message — the returned
reply string ends with the one fixed safety disclaimer string
`SAFETY_DISCLAIMER`. -/
theorem processMessage_disclaimer_suffix (v : JSVal) :
    ∃ p, processMessage v = p ++ SAFETY_DISCLAIMER := by
  simp only [processMessage]
  split_ifs with h1 h2
  · exact ⟨_, rfl⟩
  · exact ⟨_, rfl⟩
  · rcases hf : findMatchingIntent (jsTrim (getStr v)) with _ | intent
    · exact ⟨_, rfl⟩
    · exact ⟨_, rfl⟩

/-- **C9 (amended).** `processMessage` never fails on degenerate input:
a missing or non-string message, and also the empty string (falsy in JS),
yield the fixed reply "I didn't receive a message. How can I help you
today?" plus disclaimer; a non-empty string trimming to the empty string
yields the fixed reply "Please type a message so I can assist you." plus
disclaimer; neither reply is an intent response or the default FAQ
response. -/
theorem processMessage_degenerate_inputs :
    (∀ v : JSVal, isString v = false →
      processMessage v = "I didn\x27t receive a message. How can I help you today?" ++ SAFETY_DISCLAIMER) ∧
    (processMessage (JSVal.str "") =
      "I didn\x27t receive a message. How can I help you today?" ++ SAFETY_DISCLAIMER) ∧
    (∀ m : String, m ≠ "" → (jsTrim m).data.length = 0 →
      processMessage (JSVal.str m) =
        "Please type a message so I can assist you." ++ SAFETY_DISCLAIMER) ∧
    ("I didn\x27t receive a message. How can I help you today?" ++ SAFETY_DISCLAIMER ≠
      DEFAULT_RESPONSE ++ SAFETY_DISCLAIMER) ∧
    ("Please type a message so I can assist you." ++ SAFETY_DISCLAIMER ≠
      DEFAULT_RESPONSE ++ SAFETY_DISCLAIMER) := by
  refine ⟨?_, by decide, ?_, by decide, by decide⟩
  · intro v hv
    unfold processMessage
    rw [if_pos (by simp [hv])]
  · intro m hm h0
    unfold processMessage
    rw [if_neg (by simp [jsTruthy, isString, beq_eq_false_iff_ne.mpr hm])]
    simp only [getStr]
    rw [if_pos h0]

/-- Witness for C9: a numeric message gets the missing-message reply; a
whitespace-only message gets the empty-message reply. -/
theorem processMessage_degenerate_witness :
    processMessage (JSVal.num 5) =
      "I didn\x27t receive a message. How can I help you today?" ++ SAFETY_DISCLAIMER ∧
    processMessage (JSVal.str " ") =
      "Please type a message so I can assist you." ++ SAFETY_DISCLAIMER :=
  ⟨processMessage_degenerate_inputs.1 (JSVal.num 5) rfl,
   processMessage_degenerate_inputs.2.2.1 " " (by decide) (by decide)⟩

/-- Counterexample for C9 as stated: the empty string is a string that
trims to the empty string, yet `processMessage` returns the
missing-message reply, not the empty-message reply the claim predicts. -/
theorem processMessage_empty_counterexample :
    processMessage (JSVal.str "") =
      "I didn\x27t receive a message. How can I help you today?" ++ SAFETY_DISCLAIMER ∧
    processMessage (JSVal.str "") ≠
      "Please type a message so I can assist you." ++ SAFETY_DISCLAIMER :=
  ⟨by decide, by decide⟩

/-- A `JSVal` with `isString` true is a `str`. -/
theorem isString_iff (v : JSVal) : isString v = true ↔ ∃ s, v = JSVal.str s := by
  cases v <;> simp [isString]

/-- Characterisation of the spec-side string-length predicate. -/
theorem trimmedLenBetween_iff (v : JSVal) (lo hi : Nat) :
    trimmedLenBetween v lo hi = true ↔
      ∃ s, v = JSVal.str s ∧ lo ≤ (jsTrim s).data.length ∧ (jsTrim s).data.length ≤ hi := by
  cases v <;> simp [trimmedLenBetween]

/-- Characterisation of the spec-side (amended) age predicate. -/
theorem numberAgeInRange_iff (v : JSVal) :
    numberAgeInRange v = true ↔ ∃ q, jsNumber v = some q ∧ 0 ≤ q ∧ q ≤ 150 := by
  unfold numberAgeInRange
  rcases hq : jsNumber v with _ | q
  · simp
  · simp

/-- **C5 (amended).** `validateSupportRequest` accepts (returns `null`)
exactly when: the name is a string whose trimmed length is between 2 and
100, the age is present and its `Number` coercion is a (not necessarily
integer) number in [0,150], the issue category is one of Medical,
Mental Health, Emergency, Other, and the description is a string whose
trimmed length is between 10 and 2000; on every rejection the
support-request handler surfaces the error message as a 400 response. -/
theorem validateSupportRequest_characterisation (name age issueCategory description : JSVal) :
    (validateSupportRequest name age issueCategory description = none ↔
      specAcceptsAmended name age issueCategory description = true) ∧
    (∀ msg, validateSupportRequest name age issueCategory description = some msg →
      handleSupportRequest name age issueCategory description = HandlerResult.failure 400 msg) := by
  constructor
  · constructor
    · intro h
      unfold validateSupportRequest at h
      split_ifs at h with h1 h2 h3 h4 h5 h6 h7
      simp at h
      have h5a : (["Medical", "Mental Health", "Emergency", "Other"].any
          fun c => issueCategory == JSVal.str c) = true := by
        rcases Bool.eq_false_or_eq_true (["Medical", "Mental Health", "Emergency", "Other"].any
            fun c => issueCategory == JSVal.str c) with ht | hf
        · exact ht
        · exact absurd (by rw [hf]; simp) h5
      simp at h1 h2 h3 h4 h6 h7
      obtain ⟨s, rfl⟩ := (isString_iff name).mp h1.1.2
      obtain ⟨d, rfl⟩ := (isString_iff description).mp h6.1.2
      obtain ⟨q, hq⟩ : ∃ q, jsNumber age = some q := by
        rcases hqq : jsNumber age with _ | q
        · rw [hqq] at h4
          simp at h4
        · exact ⟨q, rfl⟩
      rw [hq] at h4
      simp only [Option.getD_some] at h4
      simp only [getStr] at h1 h2 h6 h7
      have g1 : trimmedLenBetween (JSVal.str s) 2 100 = true :=
        (trimmedLenBetween_iff _ 2 100).mpr ⟨s, rfl, h1.2, h2⟩
      have g2u : (age == JSVal.undef) = false := beq_eq_false_iff_ne.mpr h3.1
      have g2n : (age == JSVal.null) = false := beq_eq_false_iff_ne.mpr h3.2
      have g2m : numberAgeInRange age = true :=
        (numberAgeInRange_iff age).mpr ⟨q, hq, h4.1.2, h4.2⟩
      have g3 : categoryOk issueCategory = true := by
        rw [List.any_eq_true] at h5a
        rcases h5a with ⟨c, hc, hbeq⟩
        unfold categoryOk
        simp only [List.mem_cons, List.not_mem_nil, or_false] at hc
        rcases hc with rfl | rfl | rfl | rfl <;> simp [hbeq]
      have g4 : trimmedLenBetween (JSVal.str d) 10 2000 = true :=
        (trimmedLenBetween_iff _ 10 2000).mpr ⟨d, rfl, h6.2, h7⟩
      unfold specAcceptsAmended
      simp [g1, g2u, g2n, g2m, g3, g4]
    · intro h
      unfold specAcceptsAmended at h
      simp only [Bool.and_eq_true] at h
      obtain ⟨⟨⟨hA, ⟨⟨hu, hn⟩, hm⟩⟩, hC⟩, hD⟩ := h
      obtain ⟨s, rfl, hs1, hs2⟩ := (trimmedLenBetween_iff name 2 100).mp hA
      obtain ⟨d, rfl, hd1, hd2⟩ := (trimmedLenBetween_iff description 10 2000).mp hD
      obtain ⟨q, hq, hq0, hq150⟩ := (numberAgeInRange_iff age).mp hm
      have hs1L : 2 ≤ (jsTrim s).length := hs1
      have hs2L : (jsTrim s).length ≤ 100 := hs2
      have hd1L : 10 ≤ (jsTrim d).length := hd1
      have hd2L : (jsTrim d).length ≤ 2000 := hd2
      simp only [Bool.not_eq_true'] at hu hn
      have hs0 : s ≠ "" := by
        rintro rfl
        exact absurd hs1 (by decide)
      have hd0 : d ≠ "" := by
        rintro rfl
        exact absurd hd1 (by decide)
      unfold categoryOk at hC
      simp only [Bool.or_eq_true, beq_iff_eq] at hC
      unfold validateSupportRequest
      rw [if_neg (by simp [jsTruthy, isString, getStr, beq_eq_false_iff_ne.mpr hs0]; omega)]
      rw [if_neg (by simp [getStr]; omega)]
      rw [if_neg (by simp [hu, hn])]
      rw [if_neg (by
        rw [hq]
        simp only [Option.isNone_some, Option.getD_some, Bool.or_eq_true, decide_eq_true_eq,
          Bool.false_or, not_or, not_lt]
        exact ⟨hq0, hq150⟩)]
      rw [if_neg (by rcases hC with ((rfl | rfl) | rfl) | rfl <;> decide)]
      rw [if_neg (by simp [jsTruthy, isString, getStr, beq_eq_false_iff_ne.mpr hd0]; omega)]
      rw [if_neg (by simp [getStr]; omega)]
  · intro msg h
    unfold handleSupportRequest
    rw [h]

/-- Witness for C5: a fully valid request is accepted, and a too-short
name is surfaced by the handler as the 400 response with the validator's
message. -/
theorem validateSupportRequest_witness :
    validateSupportRequest (JSVal.str "John Doe") (JSVal.num 30) (JSVal.str "Medical")
      (JSVal.str "I have had a mild headache.") = none ∧
    handleSupportRequest (JSVal.str "A") (JSVal.num 30) (JSVal.str "Medical")
      (JSVal.str "I have had a mild headache.") =
      HandlerResult.failure 400 "Name is required and must be at least 2 characters" :=
  ⟨(validateSupportRequest_characterisation _ _ _ _).1.mpr (by decide),
   (validateSupportRequest_characterisation _ _ _ _).2 _ (by decide)⟩

/-- Counterexample for C5 as stated: the non-integer age 1/2 (JS `0.5`)
passes validation (`Number(age)` is only range-checked, never
integrality-checked), although the claimed characterisation requires an
integer age and so demands rejection. -/
theorem validateSupportRequest_nonint_age_counterexample :
    validateSupportRequest (JSVal.str "John Doe") (JSVal.num (mkRat 1 2)) (JSVal.str "Medical")
      (JSVal.str "I have had a mild headache.") = none ∧
    specAcceptsClaim (JSVal.str "John Doe") (JSVal.num (mkRat 1 2)) (JSVal.str "Medical")
      (JSVal.str "I have had a mild headache.") = false :=
  ⟨by decide, by decide⟩

end HealthcareSupport
